import Mathlib

/-!
# AviationTools — verification of the calculation cores

Shallow embedding of the pure calculation functions of the AviationTools
repository (three parallel UI-framework variants of the same aviation
calculators), together with theorems settling the spec claims about them.

Modelling conventions:
* JavaScript numbers are modelled as exact rationals (`ℚ`) where a function
  only uses field arithmetic and comparisons, and as reals (`ℝ`) where it
  uses trigonometric or irrational operations.  `Number.isNaN` is therefore
  always false on values produced inside the model and the corresponding
  guards in the source collapse to `false`.
* The JavaScript `%` remainder (sign of the dividend, truncated quotient) is
  modelled by `jsMod`; `Math.round` (half-up) by `jsRound`; `Math.atan2` by
  `jsAtan2` via the complex argument; `Infinity`-or-number results by the
  two-constructor type `JsNum`.
* Functions that `throw new Error(msg)` are modelled in `Except String`.
-/

namespace JsHelpers

noncomputable section

/-- JavaScript truncation toward zero of a real number. -/
def jsTrunc (x : ℝ) : ℤ :=
  if 0 ≤ x then ⌊x⌋ else ⌈x⌉

/-- JavaScript `x % y` remainder: `x - y * trunc(x / y)` (sign of dividend). -/
def jsMod (x y : ℝ) : ℝ :=
  x - y * jsTrunc (x / y)

/-- JavaScript `Math.round`: round half up, `⌊x + 1/2⌋`. -/
def jsRound (x : ℝ) : ℤ :=
  ⌊x + 1 / 2⌋

/-- JavaScript `Math.atan2(y, x)`, modelled as the argument of `x + y·i`
(range `(-π, π]`, `atan2(0,0) = 0`, matching `Math.atan2`). -/
def jsAtan2 (y x : ℝ) : ℝ :=
  Complex.arg (Complex.ofReal x + Complex.ofReal y * Complex.I)

/-- A JavaScript number that is either `Infinity` or an ordinary value. -/
inductive JsNum where
  | inf : JsNum
  | fin : ℝ → JsNum

end

end JsHelpers

open JsHelpers

namespace AltitudeCorrection

/-- Result of `calculateTemperatureCorrection`
(src/src/tools/AltitudeCorrection.tsx and
src/src/app/tools/altitude-correction/altitude-correction.component.ts). -/
structure AltitudeCorrectionResult where
  correctedAltitude : ℚ
  correction : ℚ
deriving DecidableEq

/-- Source function `calculateTemperatureCorrection` from src/src/tools/AltitudeCorrection.tsx
(lines 17–29); the Angular variant in
altitude-correction.component.ts (lines 48–62) is textually identical. -/
def calculateTemperatureCorrection (decisionAltitude airportAltitude temperature : ℚ) :
    AltitudeCorrectionResult :=
  let heightAboveAirport := decisionAltitude - airportAltitude
  let isaTemp := 15 - airportAltitude / 1000 * 2
  let actualTempKelvin := temperature + 273
  let correction := heightAboveAirport * (isaTemp - temperature) / actualTempKelvin
  let correctedAltitude := decisionAltitude + correction
  { correctedAltitude := correctedAltitude, correction := correction }

end AltitudeCorrection

namespace MinimaAltitudeHeight

/-- Result of `calculateMinima` (src/unnamed/part_026, lines 187–204). -/
structure MinimaResult where
  decisionAltitude : ℚ
  decisionHeight : ℚ
  usesAircraftMinima : Bool
  aircraftAdjustment : ℚ
deriving DecidableEq

/-- Source function `calculateMinima` from src/unnamed/part_026 (lines 187–204); the same
logic appears in src/src/tools/MinimaAltitudeHeight.tsx (lines 115–119). -/
def calculateMinima (oca och aircraftMinima operatorMargin : ℚ) : MinimaResult :=
  let usesAircraftMinima := och < aircraftMinima
  let aircraftAdjustment := if usesAircraftMinima then aircraftMinima - och else 0
  let decisionAltitude := oca + aircraftAdjustment + operatorMargin
  let decisionHeight := (if usesAircraftMinima then aircraftMinima else och) + operatorMargin
  { decisionAltitude := decisionAltitude
    decisionHeight := decisionHeight
    usesAircraftMinima := usesAircraftMinima
    aircraftAdjustment := aircraftAdjustment }

end MinimaAltitudeHeight

namespace TurnCalculator

/-- Result of `calculateTurn` (src/src/tools/TurnCalculator.tsx); both fields
may be `Infinity` for a degenerate bank angle. -/
structure TurnResult where
  radiusMeters : JsNum
  time360Seconds : JsNum

noncomputable section

/-- Source function `calculateTurn` from src/src/tools/TurnCalculator.tsx (lines 147–165).
Note the degenerate guard in the source is `bankAngle === 0 || bankAngle >= 90`,
not `<= 0`; negative bank angles reach the general formula. -/
def calculateTurn (speedKnots bankAngle : ℝ) : TurnResult :=
  if bankAngle = 0 ∨ 90 ≤ bankAngle then
    { radiusMeters := JsNum.inf, time360Seconds := JsNum.inf }
  else
    let speedMps := speedKnots * 0.514444
    let bankRad := bankAngle * Real.pi / 180
    let radius := speedMps * speedMps / (9.81 * Real.tan bankRad)
    let turnRateDegPerSec := 9.81 * Real.tan bankRad / speedMps * (180 / Real.pi)
    let time360 := 360 / turnRateDegPerSec
    { radiusMeters := JsNum.fin (jsRound radius), time360Seconds := JsNum.fin (jsRound time360) }

/-- The radius computed by `calculateTurn` before `Math.round`, as a function
of speed and bank angle (the non-degenerate branch of the source). -/
def turnRadiusRaw (speedKnots bankAngle : ℝ) : ℝ :=
  let speedMps := speedKnots * 0.514444
  speedMps * speedMps / (9.81 * Real.tan (bankAngle * Real.pi / 180))

end

end TurnCalculator

namespace HeadCrossWind

/-- Crosswind origin side from `calculateWindComponents`
(src/src/tools/HeadCrossWind.tsx). -/
inductive CrosswindSide where
  | left : CrosswindSide
  | right : CrosswindSide
  | none : CrosswindSide
deriving DecidableEq

/-- Result record of `calculateWindComponents`. -/
structure WindComponentsResult where
  headwind : ℝ
  crosswind : ℝ
  crosswindFrom : CrosswindSide

noncomputable section

/-- Source function `normalizeDegrees` from src/src/tools/HeadCrossWind.tsx (lines 12–15):
JavaScript `value % 360`, plus 360 if the remainder is negative. -/
def normalizeDegrees (value : ℝ) : ℝ :=
  let normalized := jsMod value 360
  if normalized < 0 then normalized + 360 else normalized

/-- Source function `calculateWindComponents` from src/src/tools/HeadCrossWind.tsx
(lines 25–40); the Angular variant in head-cross-wind.component.ts
(lines 60–70) is textually identical. -/
def calculateWindComponents (windSpeed windDirection aircraftHeading : ℝ) :
    WindComponentsResult :=
  let relativeDirectionRad := (windDirection - aircraftHeading) * Real.pi / 180
  let headwind := windSpeed * Real.cos relativeDirectionRad
  let crosswind := windSpeed * Real.sin relativeDirectionRad
  let crosswindFrom :=
    if 0.05 ≤ |crosswind| then
      (if 0 < crosswind then CrosswindSide.right else CrosswindSide.left)
    else CrosswindSide.none
  { headwind := headwind, crosswind := crosswind, crosswindFrom := crosswindFrom }

end

end HeadCrossWind

namespace TrackGroundSpeed

/-- Result of `calculateGroundVector` (src/src/tools/TrackGroundSpeed.tsx). -/
structure GroundVector where
  groundTrack : ℝ
  groundSpeed : ℝ

noncomputable section

/-- Source function `calculateGroundVector` from src/src/tools/TrackGroundSpeed.tsx
(lines 19–42); it imports `normalizeDegrees` from HeadCrossWind.tsx. -/
def calculateGroundVector (heading tas windFromDirection windSpeed : ℝ) : GroundVector :=
  let headingRad := heading * Real.pi / 180
  let windToDirection := HeadCrossWind.normalizeDegrees (windFromDirection + 180)
  let windToRad := windToDirection * Real.pi / 180
  let aircraftVx := tas * Real.sin headingRad
  let aircraftVy := tas * Real.cos headingRad
  let windVx := windSpeed * Real.sin windToRad
  let windVy := windSpeed * Real.cos windToRad
  let totalVx := aircraftVx + windVx
  let totalVy := aircraftVy + windVy
  let groundSpeed := Real.sqrt (totalVx * totalVx + totalVy * totalVy)
  let groundTrack := HeadCrossWind.normalizeDegrees (jsAtan2 totalVx totalVy * 180 / Real.pi)
  { groundTrack := groundTrack, groundSpeed := groundSpeed }

end

end TrackGroundSpeed

namespace FlybyTurn

/-- Result of `computeTurnAnticipationDistance` (src/unnamed/part_011);
`turnRadiusM` is `Infinity` for a near-straight track change. -/
structure TurnAnticipationResult where
  turnAngleDeg : ℝ
  turnRadiusM : JsNum
  leadDistanceM : ℝ
  leadDistanceNM : ℝ

/-- Constant `G` from src/unnamed/part_011. -/
def G : ℚ := 9.80665

/-- Constant `NM_TO_M` from src/unnamed/part_011. -/
def NM_TO_M : ℚ := 1852

noncomputable section

/-- Source function `degToRad` from src/unnamed/part_011 (lines 18–20). -/
def degToRad (deg : ℝ) : ℝ :=
  deg * Real.pi / 180

/-- Source function `normalizeDeg360` from src/unnamed/part_011 (lines 22–26). -/
def normalizeDeg360 (deg : ℝ) : ℝ :=
  let x := jsMod deg 360
  if x < 0 then x + 360 else x

/-- Source function `smallestTurnAngleDeg` from src/unnamed/part_011 (lines 28–34). -/
def smallestTurnAngleDeg (inboundTrackDeg outboundTrackDeg : ℝ) : ℝ :=
  let inbound := normalizeDeg360 inboundTrackDeg
  let outbound := normalizeDeg360 outboundTrackDeg
  let delta := |outbound - inbound|
  if 180 < delta then 360 - delta else delta

/-- Source function `computeTurnAnticipationDistance` from src/unnamed/part_011 (lines 51–99).
The `Number.isFinite` guards of the source are always satisfied in the real
model, so only the sign conditions of those guards remain. -/
def computeTurnAnticipationDistance
    (bankAngleDeg groundSpeedKt inboundTrackDeg outboundTrackDeg : ℝ) :
    Except String TurnAnticipationResult :=
  if bankAngleDeg ≤ 0 then
    Except.error "bankAngleDeg must be a finite number > 0"
  else if groundSpeedKt ≤ 0 then
    Except.error "groundSpeedKt must be a finite number > 0"
  else
    let turnAngleDeg := smallestTurnAngleDeg inboundTrackDeg outboundTrackDeg
    if 179 < turnAngleDeg then
      Except.error "Turn difference must be 179 deg or less for this model."
    else if turnAngleDeg < 1e-6 then
      Except.ok { turnAngleDeg := turnAngleDeg, turnRadiusM := JsNum.inf,
                  leadDistanceM := 0, leadDistanceNM := 0 }
    else
      let speedMps := groundSpeedKt * 0.514444
      let bankAngleRad := degToRad bankAngleDeg
      let tanBank := Real.tan bankAngleRad
      if tanBank ≤ 0 then
        Except.error "Invalid bank angle (tan(phi) not finite/positive)."
      else
        let turnRadiusM := speedMps * speedMps / ((G : ℝ) * tanBank)
        let turnAngleRad := degToRad turnAngleDeg
        let leadDistanceM := turnRadiusM * Real.tan (turnAngleRad / 2)
        Except.ok { turnAngleDeg := turnAngleDeg, turnRadiusM := JsNum.fin turnRadiusM,
                    leadDistanceM := leadDistanceM, leadDistanceNM := leadDistanceM / (NM_TO_M : ℝ) }

end

end FlybyTurn

namespace ApproachTable

/-- Distance unit selector of `calculateApproachTable` (src/unnamed/part_009). -/
inductive DistanceUnit where
  | NM : DistanceUnit
  | km : DistanceUnit
deriving DecidableEq

/-- A row of the approach table (src/unnamed/part_009); `distanceKM` holds the
display string produced by the source (`toFixed(1)` in the NM branch, the raw
integer in the km branch). -/
structure ApproachRow where
  distanceNM : ℝ
  distanceKM : String
  altitudeAbove : ℝ
  heightAbove : ℝ

/-- JavaScript `Number.prototype.toFixed(1)` for the nonnegative exact decimal
values produced in the NM branch (integer multiples of 1.852): round half up
to one fractional digit and print. -/
def jsToFixed1 (q : ℚ) : String :=
  let scaled : ℤ := ⌊q * 10 + 1 / 2⌋
  toString (scaled / 10) ++ "." ++ toString (scaled % 10)

noncomputable section

/-- Source function `calculateApproachTable` from src/unnamed/part_009 (lines 26–70); the
NM branch also appears verbatim in src/src/tools/ApproachTable.tsx
(lines 140–170). -/
def calculateApproachTable (targetAltitude slopeAngle : ℝ) (distanceUnit : DistanceUnit) :
    List ApproachRow :=
  match distanceUnit with
  | DistanceUnit.km =>
    (List.range 20).map (fun i =>
      let distanceKM : ℕ := i + 1
      let distanceNM : ℝ := (distanceKM : ℝ) / 1.852
      let distanceFeet := distanceNM * 6076.12
      let slopeRadians := slopeAngle * Real.pi / 180
      let heightAbove := distanceFeet * Real.tan slopeRadians
      let altitudeAbove := targetAltitude + heightAbove
      { distanceNM := distanceNM, distanceKM := toString distanceKM,
        altitudeAbove := altitudeAbove, heightAbove := heightAbove })
  | DistanceUnit.NM =>
    (List.range 10).map (fun i =>
      let distanceNM : ℕ := i + 1
      let distanceFeet := (distanceNM : ℝ) * 6076.12
      let distanceKM := jsToFixed1 ((distanceNM : ℚ) * 1.852)
      let slopeRadians := slopeAngle * Real.pi / 180
      let heightAbove := distanceFeet * Real.tan slopeRadians
      let altitudeAbove := targetAltitude + heightAbove
      { distanceNM := (distanceNM : ℝ), distanceKM := distanceKM,
        altitudeAbove := altitudeAbove, heightAbove := heightAbove })

end

end ApproachTable

namespace JsRegex

/-- JavaScript whitespace class (the `\s` characters that occur in
coordinate input strings). -/
def isWs (c : Char) : Bool :=
  c = ' ' ∨ c = '\t' ∨ c = '\n' ∨ c = '\r'

/-- Predicate for the coordinate direction letters `N|S|E|W`. -/
def isDirChar (c : Char) : Bool :=
  c = 'N' ∨ c = 'S' ∨ c = 'E' ∨ c = 'W'

/-- JavaScript `String.prototype.trim` (strip leading/trailing whitespace). -/
def jsTrim (s : String) : String :=
  String.mk (((s.toList.dropWhile (fun c => isWs c)).reverse.dropWhile (fun c => isWs c)).reverse)

/-- JavaScript `String.prototype.toUpperCase`, restricted to the characters
that can affect the two coordinate regexes: ASCII letters map as usual, the
letter `ů` (which appears in the Angular regex class and in the formatted DM
output of the component) maps to `Ů`, and `ſ` (the one further character
whose JavaScript uppercase lands in the grammar alphabet, namely `S`) maps
to `S`.  Every other character is left unchanged; for those, neither the
character nor its full-Unicode uppercase image can occur inside a successful
match of the anchored coordinate grammars, so match results and captures
agree with the program. -/
def jsToUpperCase (s : String) : String :=
  String.mk (s.toList.map (fun c =>
    if c = 'ů' then 'Ů' else if c = 'ſ' then 'S' else c.toUpper))

/-- Matcher for a single character of a class; at most one continuation, as
`(consumed char, rest)`. -/
def matchChar (p : Char → Bool) : List Char → List (Char × List Char)
  | [] => []
  | c :: rest => if p c then [(c, rest)] else []

/-- All continuations of a greedy Kleene star over a character class, longest
match first (the JavaScript backtracking preference order); only the
remaining suffixes are returned. -/
def starRests (p : Char → Bool) : List Char → List (List Char)
  | [] => [[]]
  | c :: rest =>
    if p c then (starRests p rest) ++ [c :: rest] else [c :: rest]

/-- All continuations of a greedy one-or-more repetition with capture,
longest match first: pairs of `(captured run, rest)`. -/
def plusCaptures (p : Char → Bool) : List Char → List (List Char × List Char)
  | [] => []
  | c :: rest =>
    if p c then
      ((plusCaptures p rest).map (fun cap => (c :: cap.1, cap.2))) ++ [([c], rest)]
    else []

/-- Greedy optional single character, present-first. -/
def optChar (p : Char → Bool) (l : List Char) : List (Option Char × List Char) :=
  ((matchChar p l).map (fun cr => (some cr.1, cr.2))) ++ [(none, l)]

/-- Optional fraction `(?:\.\d+)?`, present-first; the capture includes the
dot. -/
def fracOpt (l : List Char) : List (List Char × List Char) :=
  ((matchChar (fun c => c = '.') l).flatMap (fun pr =>
    (plusCaptures (fun c => c.isDigit) pr.2).map (fun ds => (pr.1 :: ds.1, ds.2))))
  ++ [([], l)]

/-- Unsigned number capture `\d+(?:\.\d+)?`. -/
def unum (l : List Char) : List (List Char × List Char) :=
  (plusCaptures (fun c => c.isDigit) l).flatMap (fun ds =>
    (fracOpt ds.2).map (fun fs => (ds.1 ++ fs.1, fs.2)))

/-- Signed number capture `-?\d+(?:\.\d+)?`, sign-present-first. -/
def snum (l : List Char) : List (List Char × List Char) :=
  ((matchChar (fun c => c = '-') l).flatMap (fun m =>
    (unum m.2).map (fun n => (m.1 :: n.1, n.2))))
  ++ unum l

/-- Capture groups of the DM/DMS coordinate regular expressions. -/
structure DmsGroups where
  dirPre : Option Char
  degStr : String
  minStr : String
  secStr : Option String
  dirSuf : Option Char
deriving DecidableEq

/-- Optional seconds group of the regex in
src/src/tools/CoordinatesConversion.ts — a quote-or-whitespace character
(class \x27 or `\s`), then `\s*`, then a captured number — present-first. -/
def secOptVite (l : List Char) : List (Option (List Char) × List Char) :=
  ((matchChar (fun c => c = '\x27' ∨ isWs c) l).flatMap (fun pq =>
    (starRests isWs pq.2).flatMap (fun r2 =>
      (unum r2).map (fun pn => (some pn.1, pn.2)))))
  ++ [(none, l)]

/-- Anchored regex of `parseCoordinateString` in
src/src/tools/CoordinatesConversion.ts (line 200): an optional direction
letter, `\s*`, a signed number (degrees), `\s*`, one mandatory degree-sign or
whitespace character, `\s*`, an unsigned number (minutes), the optional
seconds group of `secOptVite`, `\s*`, and an optional direction letter, all
anchored at both ends.  Candidates are produced in JavaScript backtracking
preference order and the first one consuming the whole input wins, exactly
as in `String.prototype.match`. -/
def matchDmVite (l : List Char) : Option DmsGroups :=
  let cands : List (DmsGroups × List Char) :=
    (optChar isDirChar l).flatMap (fun p1 =>
    (starRests isWs p1.2).flatMap (fun r2 =>
    (snum r2).flatMap (fun pdeg =>
    (starRests isWs pdeg.2).flatMap (fun r4 =>
    (matchChar (fun c => c = '°' ∨ isWs c) r4).flatMap (fun psep =>
    (starRests isWs psep.2).flatMap (fun r6 =>
    (unum r6).flatMap (fun pmin =>
    (secOptVite pmin.2).flatMap (fun psec =>
    (starRests isWs psec.2).flatMap (fun r9 =>
    (optChar isDirChar r9).map (fun p10 =>
      ({ dirPre := p1.1, degStr := String.mk pdeg.1, minStr := String.mk pmin.1,
         secStr := psec.1.map String.mk, dirSuf := p10.1 }, p10.2)))))))))))
  ((cands.find? (fun gr => gr.2.isEmpty)).map (fun gr => gr.1))

/-- Optional seconds group of the regex in
coordinates-conversion.component.ts — a captured number, `\s*`, and an
optional double-quote — present-first. -/
def secOptNg (l : List Char) : List (Option (List Char) × List Char) :=
  ((unum l).flatMap (fun pn =>
    (starRests isWs pn.2).flatMap (fun r2 =>
      (optChar (fun c => c = '"') r2).map (fun pq => (some pn.1, pq.2)))))
  ++ [(none, l)]

/-- Anchored regex of `parseCoordinateString` in
src/src/app/tools/coordinates-conversion/coordinates-conversion.component.ts
(lines 88–90): an optional direction letter, `\s*`, a signed number
(degrees), `\s*`, an optional character of the class `[°ůod]`, `\s*`, an
unsigned number (minutes), `\s*`, an optional single-quote (\x27), `\s*`,
the optional seconds group of `secOptNg`, `\s*`, and an optional direction
letter, anchored at both ends.  The component applies this regex to the
upper-cased input, so the lowercase members `ů`, `o`, `d` of the degree-mark
class are unreachable in the program and, with the faithful `jsToUpperCase`,
equally unreachable through `parseCoordinateString` in this model: only the
degree sign of that class can ever match. -/
def matchDmNg (l : List Char) : Option DmsGroups :=
  let cands : List (DmsGroups × List Char) :=
    (optChar isDirChar l).flatMap (fun p1 =>
    (starRests isWs p1.2).flatMap (fun r2 =>
    (snum r2).flatMap (fun pdeg =>
    (starRests isWs pdeg.2).flatMap (fun r4 =>
    (optChar (fun c => c = '°' ∨ c = 'ů' ∨ c = 'o' ∨ c = 'd') r4).flatMap (fun psep =>
    (starRests isWs psep.2).flatMap (fun r6 =>
    (unum r6).flatMap (fun pmin =>
    (starRests isWs pmin.2).flatMap (fun r8 =>
    (optChar (fun c => c = '\x27') r8).flatMap (fun pq =>
    (starRests isWs pq.2).flatMap (fun r10 =>
    (secOptNg r10).flatMap (fun psec =>
    (starRests isWs psec.2).flatMap (fun r12 =>
    (optChar isDirChar r12).map (fun p13 =>
      ({ dirPre := p1.1, degStr := String.mk pdeg.1, minStr := String.mk pmin.1,
         secStr := psec.1.map String.mk, dirSuf := p13.1 }, p13.2))))))))))))))
  ((cands.find? (fun gr => gr.2.isEmpty)).map (fun gr => gr.1))

/-- Value of a digit run as a natural number. -/
def digitsToNat (l : List Char) : ℕ :=
  l.foldl (fun a c => a * 10 + (c.toNat - 48)) 0

/-- JavaScript `parseFloat` on an unsigned captured number token. -/
def parseUnsignedQ (l : List Char) : ℚ :=
  let ip := l.takeWhile Char.isDigit
  let rest := l.dropWhile Char.isDigit
  match rest with
  | '.' :: frac =>
    let fd := frac.takeWhile Char.isDigit
    (digitsToNat ip : ℚ) + (digitsToNat fd : ℚ) / (10 : ℚ) ^ fd.length
  | _ => (digitsToNat ip : ℚ)

/-- JavaScript `parseFloat` restricted to the signed number tokens the
regexes capture (always a well-formed number, never `NaN`). -/
def parseFloatQ (s : String) : ℚ :=
  match s.toList with
  | '-' :: rest => -(parseUnsignedQ rest)
  | l => parseUnsignedQ l

/-- Seconds value used by the parsers: `parseFloat` of the captured seconds,
or `0` when the group is absent. -/
def capturedSeconds (g : DmsGroups) : ℚ :=
  match g.secStr with
  | some s => parseFloatQ s
  | none => 0

/-- Value `sign * (|degrees| + minutes/60 + seconds/3600)` produced when no
direction letter is captured, so the sign falls back to the sign of the
degree number (the fallback branch of `getSignFromDirection`). -/
def signFallbackValue (g : DmsGroups) : ℚ :=
  (if parseFloatQ g.degStr < 0 then -1 else 1) *
    (|parseFloatQ g.degStr| + parseFloatQ g.minStr / 60 + capturedSeconds g / 3600)

/-- Source function `getSignFromDirection` (identical in
CoordinatesConversion.ts lines 293–305 and
coordinates-conversion.component.ts lines 66–79). -/
def getSignFromDirection (direction : Option Char) (isLat : Bool) (degrees : ℚ) :
    Except String ℚ :=
  match direction with
  | some c =>
    if ¬(if isLat then c = 'N' ∨ c = 'S' else c = 'E' ∨ c = 'W') then
      Except.error ("Use " ++ (if isLat then "N or S" else "E or W") ++ " for "
        ++ (if isLat then "latitude" else "longitude") ++ " directions.")
    else if c = 'S' ∨ c = 'W' then Except.ok (-1)
    else if c = 'N' ∨ c = 'E' then Except.ok 1
    else Except.ok (if degrees < 0 then -1 else 1)
  | none => Except.ok (if degrees < 0 then -1 else 1)

end JsRegex

open JsRegex

namespace CoordinatesConversion

/-- Source function `parseCoordinateString` from
src/src/tools/CoordinatesConversion.ts (lines 197–228), the Vite variant:
no direction letter is required for DMS input.  The `Number.isNaN` checks of
the source are always false on the captured tokens and are omitted. -/
def parseCoordinateString (value : String) (expectSeconds : Bool) (isLat : Bool) :
    Except String ℚ :=
  let trimmed := jsToUpperCase (jsTrim value)
  match matchDmVite trimmed.toList with
  | none =>
    Except.error ("Could not parse " ++ (if expectSeconds then "DMS" else "DM")
      ++ " value: \x22" ++ value ++ "\x22")
  | some g =>
    let degrees := parseFloatQ g.degStr
    let minutes := parseFloatQ g.minStr
    let seconds := capturedSeconds g
    if minutes < 0 ∨ 60 ≤ minutes ∨ seconds < 0 ∨ 60 ≤ seconds then
      Except.error "Minutes and seconds must be between 0 and 59."
    else if expectSeconds ∧ g.secStr = none then
      Except.error "Please include seconds for DMS coordinates."
    else
      let direction := match g.dirPre with | some c => some c | none => g.dirSuf
      match getSignFromDirection direction isLat degrees with
      | Except.error e => Except.error e
      | Except.ok sign => Except.ok (sign * (|degrees| + minutes / 60 + seconds / 3600))

end CoordinatesConversion

namespace CoordinatesConversionComponent

/-- Source function `parseCoordinateString` from
src/src/app/tools/coordinates-conversion/coordinates-conversion.component.ts
(lines 86–123), the Angular variant: a DMS parse additionally requires a
direction letter.  The React variant in src/unnamed/part_027 has the same
direction check (with a plain optional degree sign in place of the class
`[°ůod]`). -/
def parseCoordinateString (value : String) (expectSeconds : Bool) (isLat : Bool) :
    Except String ℚ :=
  let trimmed := jsToUpperCase (jsTrim value)
  match matchDmNg trimmed.toList with
  | none =>
    Except.error ("Could not parse " ++ (if expectSeconds then "DMS" else "DM")
      ++ " value: \x22" ++ value ++ "\x22")
  | some g =>
    let degrees := parseFloatQ g.degStr
    let minutes := parseFloatQ g.minStr
    let seconds := capturedSeconds g
    if minutes < 0 ∨ 60 ≤ minutes ∨ seconds < 0 ∨ 60 ≤ seconds then
      Except.error "Minutes and seconds must be between 0 and 59."
    else if expectSeconds ∧ g.secStr = none then
      Except.error "Please include seconds for DMS coordinates."
    else
      let direction := match g.dirPre with | some c => some c | none => g.dirSuf
      if expectSeconds ∧ direction = none then
        Except.error ("Please include N/S or E/W for the "
          ++ (if isLat then "latitude" else "longitude") ++ " DMS value.")
      else
        match getSignFromDirection direction isLat degrees with
        | Except.error e => Except.error e
        | Except.ok sign => Except.ok (sign * (|degrees| + minutes / 60 + seconds / 3600))

end CoordinatesConversionComponent

section Theorems

open AltitudeCorrection MinimaAltitudeHeight

/-- The JavaScript remainder by a positive modulus lies strictly between
`-y` and `y`. -/
theorem jsMod_bounds (x : ℝ) {y : ℝ} (hy : 0 < y) : -y < jsMod x y ∧ jsMod x y < y := by
  have hy0 : y ≠ 0 := ne_of_gt hy
  have hrw : jsMod x y = y * (x / y - (jsTrunc (x / y) : ℝ)) := by
    have hxy : y * (x / y) = x := by field_simp
    simp only [jsMod]
    rw [mul_sub, hxy]
  rcases le_or_lt 0 (x / y) with h | h
  · have ht : (jsTrunc (x / y) : ℝ) = (⌊x / y⌋ : ℝ) := by simp [jsTrunc, if_pos h]
    have hd0 : 0 ≤ x / y - (⌊x / y⌋ : ℝ) := sub_nonneg.mpr (Int.floor_le _)
    have hd1 : x / y - (⌊x / y⌋ : ℝ) < 1 := by
      have := Int.sub_one_lt_floor (x / y)
      linarith
    rw [hrw, ht]
    constructor
    · nlinarith
    · nlinarith
  · have ht : (jsTrunc (x / y) : ℝ) = (⌈x / y⌉ : ℝ) := by
      simp [jsTrunc, if_neg (not_le.mpr h)]
    have hd0 : x / y - (⌈x / y⌉ : ℝ) ≤ 0 := sub_nonpos.mpr (Int.le_ceil _)
    have hd1 : -1 < x / y - (⌈x / y⌉ : ℝ) := by
      have := Int.ceil_lt_add_one (x / y)
      linarith
    rw [hrw, ht]
    constructor
    · nlinarith
    · nlinarith

/-- Function `normalizeDegrees` always lands in `[0, 360)`. -/
theorem normalizeDegrees_mem (x : ℝ) :
    0 ≤ HeadCrossWind.normalizeDegrees x ∧ HeadCrossWind.normalizeDegrees x < 360 := by
  obtain ⟨h1, h2⟩ := jsMod_bounds x (show (0 : ℝ) < 360 by norm_num)
  simp only [HeadCrossWind.normalizeDegrees]
  split_ifs with h
  · constructor <;> linarith
  · constructor <;> linarith [not_lt.mp h]

/-- JavaScript `Math.round` is monotone. -/
theorem jsRound_mono {x y : ℝ} (h : x ≤ y) : jsRound x ≤ jsRound y :=
  Int.floor_le_floor (by linarith)

/-- JavaScript `Math.round` of a small nonnegative value is zero. -/
theorem jsRound_eq_zero {x : ℝ} (h0 : 0 ≤ x) (h1 : x < 1 / 2) : jsRound x = 0 := by
  simp only [jsRound]
  rw [Int.floor_eq_zero_iff, Set.mem_Ico]
  constructor
  · linarith
  · linarith

/-- A bank angle strictly between 0° and 90°, converted to radians, has a
positive tangent. -/
theorem tan_deg_pos {b : ℝ} (h0 : 0 < b) (h90 : b < 90) :
    0 < Real.tan (b * Real.pi / 180) := by
  have hpi := Real.pi_pos
  apply Real.tan_pos_of_pos_of_lt_pi_div_two
  · positivity
  · nlinarith

/-- The tangent is strictly monotone on bank angles in `(0°, 90°)`. -/
theorem tan_deg_strictMono {b₁ b₂ : ℝ} (h0 : 0 < b₁) (h12 : b₁ < b₂) (h90 : b₂ < 90) :
    Real.tan (b₁ * Real.pi / 180) < Real.tan (b₂ * Real.pi / 180) := by
  have hpi := Real.pi_pos
  apply Real.tan_lt_tan_of_nonneg_of_lt_pi_div_two
  · positivity
  · nlinarith
  · nlinarith

/-- C2. For every `decisionAltitude`, `airportElevation`, and
`outsideAirTemperature` with `airportElevation < decisionAltitude`,
`calculateTemperatureCorrection` returns
`correction = (decisionAltitude - airportElevation) * (isaTemp - temperature) / (temperature + 273)`
with `isaTemp = 15 - (airportElevation/1000)*2`, and
`correctedAltitude = decisionAltitude + correction`; in particular
`calculateTemperatureCorrection(1500, 1000, -15)` yields `correction ≈ +54.3`
and `correctedAltitude ≈ 1554.3`. -/
theorem calculateTemperatureCorrection_spec
    (decisionAltitude airportElevation temperature : ℚ)
    (h : airportElevation < decisionAltitude) :
    (calculateTemperatureCorrection decisionAltitude airportElevation temperature).correction
        = (decisionAltitude - airportElevation) *
            ((15 - airportElevation / 1000 * 2) - temperature) / (temperature + 273) ∧
    (calculateTemperatureCorrection decisionAltitude airportElevation temperature).correctedAltitude
        = decisionAltitude +
            (calculateTemperatureCorrection decisionAltitude airportElevation temperature).correction ∧
    |(calculateTemperatureCorrection 1500 1000 (-15)).correction - 543 / 10| < 1 / 10 ∧
    |(calculateTemperatureCorrection 1500 1000 (-15)).correctedAltitude - 15543 / 10| < 1 / 10 := by
  refine ⟨rfl, rfl, ?_, ?_⟩ <;>
    · simp only [calculateTemperatureCorrection]
      rw [abs_lt]
      norm_num

/-- Witness for `calculateTemperatureCorrection_spec` at `(1500, 1000, -15)`. -/
theorem calculateTemperatureCorrection_spec_witness :
    (1000 : ℚ) < 1500 ∧
    (calculateTemperatureCorrection 1500 1000 (-15)).correction
        = (1500 - 1000) * ((15 - 1000 / 1000 * 2) - (-15)) / ((-15) + 273) :=
  ⟨by norm_num, (calculateTemperatureCorrection_spec 1500 1000 (-15) (by norm_num)).1⟩

/-- C3. For every `oca ≥ 0`, `och ≥ 0`, `aircraftMinima ≥ 0`,
`operatorMargin ≥ 0`, `calculateMinima` returns
`usesAircraftMinima = (och < aircraftMinima)`,
`aircraftAdjustment = aircraftMinima - och` when `usesAircraftMinima` else `0`,
`decisionAltitude = oca + aircraftAdjustment + operatorMargin`, and
`decisionHeight = (aircraftMinima if usesAircraftMinima else och) + operatorMargin`;
in particular `calculateMinima(1200, 400, 300, 20)` gives `(false, 1220, 420)`
and `calculateMinima(1200, 150, 300, 25)` gives `(true, 1375, 325)`. -/
theorem calculateMinima_spec (oca och aircraftMinima operatorMargin : ℚ)
    (hoca : 0 ≤ oca) (hoch : 0 ≤ och) (ham : 0 ≤ aircraftMinima) (hom : 0 ≤ operatorMargin) :
    ((calculateMinima oca och aircraftMinima operatorMargin).usesAircraftMinima
        = decide (och < aircraftMinima)) ∧
    ((calculateMinima oca och aircraftMinima operatorMargin).aircraftAdjustment
        = if och < aircraftMinima then aircraftMinima - och else 0) ∧
    ((calculateMinima oca och aircraftMinima operatorMargin).decisionAltitude
        = oca + (calculateMinima oca och aircraftMinima operatorMargin).aircraftAdjustment
            + operatorMargin) ∧
    ((calculateMinima oca och aircraftMinima operatorMargin).decisionHeight
        = (if och < aircraftMinima then aircraftMinima else och) + operatorMargin) ∧
    (calculateMinima 1200 400 300 20).usesAircraftMinima = false ∧
    (calculateMinima 1200 400 300 20).decisionAltitude = 1220 ∧
    (calculateMinima 1200 400 300 20).decisionHeight = 420 ∧
    (calculateMinima 1200 150 300 25).usesAircraftMinima = true ∧
    (calculateMinima 1200 150 300 25).decisionAltitude = 1375 ∧
    (calculateMinima 1200 150 300 25).decisionHeight = 325 := by
  refine ⟨rfl, rfl, rfl, rfl, ?_, ?_, ?_, ?_, ?_, ?_⟩ <;>
    · simp only [calculateMinima]
      norm_num

/-- Witness for `calculateMinima_spec` at `(1200, 400, 300, 20)`. -/
theorem calculateMinima_spec_witness :
    (0 : ℚ) ≤ 1200 ∧ (0 : ℚ) ≤ 400 ∧ (0 : ℚ) ≤ 300 ∧ (0 : ℚ) ≤ 20 ∧
    (calculateMinima 1200 400 300 20).decisionAltitude = 1220 :=
  ⟨by norm_num, by norm_num, by norm_num, by norm_num,
    (calculateMinima_spec 1200 400 300 20 (by norm_num) (by norm_num) (by norm_num)
      (by norm_num)).2.2.2.2.2.1⟩

/-- C10. For every `oca ≥ 0`, `och ≥ 0`, `aircraftMinima ≥ 0`, and
`operatorMargin ≥ 0`, the result of `calculateMinima` satisfies
`decisionAltitude - decisionHeight = oca - och`; equivalently,
`decisionHeight = max(och, aircraftMinima) + operatorMargin` and
`decisionAltitude = oca + (max(och, aircraftMinima) - och) + operatorMargin`,
so both outputs are raised by exactly the same aircraft adjustment. -/
theorem calculateMinima_altitude_height_relation
    (oca och aircraftMinima operatorMargin : ℚ)
    (_hoca : 0 ≤ oca) (_hoch : 0 ≤ och) (_ham : 0 ≤ aircraftMinima) (_hom : 0 ≤ operatorMargin) :
    ((calculateMinima oca och aircraftMinima operatorMargin).decisionAltitude
        - (calculateMinima oca och aircraftMinima operatorMargin).decisionHeight
        = oca - och) ∧
    ((calculateMinima oca och aircraftMinima operatorMargin).decisionHeight
        = max och aircraftMinima + operatorMargin) ∧
    ((calculateMinima oca och aircraftMinima operatorMargin).decisionAltitude
        = oca + (max och aircraftMinima - och) + operatorMargin) := by
  simp only [calculateMinima]
  rcases lt_or_le och aircraftMinima with h | h
  · rw [max_eq_right h.le]
    simp only [if_pos h]
    constructor
    · ring
    · constructor <;> ring
  · rw [max_eq_left h]
    simp only [if_neg (not_lt.mpr h)]
    constructor
    · ring
    · constructor <;> ring

/-- Witness for `calculateMinima_altitude_height_relation` at `(1200, 150, 300, 25)`. -/
theorem calculateMinima_altitude_height_relation_witness :
    (0 : ℚ) ≤ 1200 ∧ (0 : ℚ) ≤ 150 ∧ (0 : ℚ) ≤ 300 ∧ (0 : ℚ) ≤ 25 ∧
    (calculateMinima 1200 150 300 25).decisionAltitude
        - (calculateMinima 1200 150 300 25).decisionHeight = 1200 - 150 :=
  ⟨by norm_num, by norm_num, by norm_num, by norm_num,
    (calculateMinima_altitude_height_relation 1200 150 300 25
      (by norm_num) (by norm_num) (by norm_num) (by norm_num)).1⟩

/-- C4 counterexample.  The claim says every `bankAngleDeg ≤ 0` yields the
infinite pair, but `calculateTurn` only tests `bankAngle === 0 || bankAngle >= 90`:
at `speedKnots = 100 > 0` and `bankAngleDeg = -45 ≤ 0` the result is finite. -/
theorem calculateTurn_neg_bank_counterexample :
    (0 : ℝ) < 100 ∧ (-45 : ℝ) ≤ 0 ∧
    (TurnCalculator.calculateTurn 100 (-45)).radiusMeters ≠ JsNum.inf := by
  refine ⟨by norm_num, by norm_num, ?_⟩
  simp only [TurnCalculator.calculateTurn]
  rw [if_neg (by norm_num)]
  simp

/-- C4 (amended).  For every `speedKnots > 0`, if `bankAngleDeg = 0` or
`bankAngleDeg ≥ 90` then the turn calculation returns
`radiusMeters = +Infinity` and `time360Seconds = +Infinity` (a degenerate
result, not an error); in particular both `bankAngleDeg = 0` and
`bankAngleDeg = 90` yield the infinite pair.  (Strictly negative bank angles
fall through to the general formula and give a finite result.) -/
theorem calculateTurn_degenerate (v b : ℝ) (hv : 0 < v) (hb : b = 0 ∨ 90 ≤ b) :
    TurnCalculator.calculateTurn v b =
      { radiusMeters := JsNum.inf, time360Seconds := JsNum.inf } := by
  simp only [TurnCalculator.calculateTurn]
  rw [if_pos hb]

/-- Witness for `calculateTurn_degenerate` at bank angles `0` and `90`. -/
theorem calculateTurn_degenerate_witness :
    (0 : ℝ) < 100 ∧
    TurnCalculator.calculateTurn 100 0 =
      { radiusMeters := JsNum.inf, time360Seconds := JsNum.inf } ∧
    TurnCalculator.calculateTurn 100 90 =
      { radiusMeters := JsNum.inf, time360Seconds := JsNum.inf } :=
  ⟨by norm_num, calculateTurn_degenerate 100 0 (by norm_num) (Or.inl rfl),
    calculateTurn_degenerate 100 90 (by norm_num) (Or.inr (by norm_num))⟩

/-- C8 counterexample.  The radius returned by `calculateTurn` is rounded
(`Math.round`), so it is not strictly decreasing in the bank angle: at
`speedKnots = 1`, banks `45° < 60°` both return a rounded radius of `0`. -/
theorem calculateTurn_radius_not_strict_counterexample :
    (0 : ℝ) < 1 ∧ (45 : ℝ) < 60 ∧ (60 : ℝ) < 90 ∧
    (TurnCalculator.calculateTurn 1 45).radiusMeters
      = (TurnCalculator.calculateTurn 1 60).radiusMeters := by
  refine ⟨by norm_num, by norm_num, by norm_num, ?_⟩
  simp only [TurnCalculator.calculateTurn]
  rw [if_neg (by norm_num), if_neg (by norm_num)]
  have h45 : (45 : ℝ) * Real.pi / 180 = Real.pi / 4 := by ring
  have h60 : (60 : ℝ) * Real.pi / 180 = Real.pi / 3 := by ring
  rw [h45, h60, Real.tan_pi_div_four, Real.tan_pi_div_three]
  have hsq : (1 : ℝ) < Real.sqrt 3 := by
    rw [show (1 : ℝ) = Real.sqrt 1 by simp]
    exact Real.sqrt_lt_sqrt (by norm_num) (by norm_num)
  have hA : jsRound ((1 : ℝ) * 0.514444 * (1 * 0.514444) / (9.81 * 1)) = 0 :=
    jsRound_eq_zero (by norm_num) (by norm_num)
  have hB : jsRound ((1 : ℝ) * 0.514444 * (1 * 0.514444) / (9.81 * Real.sqrt 3)) = 0 := by
    apply jsRound_eq_zero
    · positivity
    · have hstep : (1 : ℝ) * 0.514444 * (1 * 0.514444) / (9.81 * Real.sqrt 3)
          < 1 * 0.514444 * (1 * 0.514444) / (9.81 * 1) := by
        apply div_lt_div_of_pos_left (by norm_num) (by positivity) (by nlinarith)
      calc (1 : ℝ) * 0.514444 * (1 * 0.514444) / (9.81 * Real.sqrt 3)
          < 1 * 0.514444 * (1 * 0.514444) / (9.81 * 1) := hstep
        _ < 1 / 2 := by norm_num
  rw [hA, hB]

/-- C8 (amended).  For every fixed speed > 0 the pre-rounding radius
`v²·0.514444²/(9.81·tan(bank))` strictly decreases as the bank angle increases
through `(0°, 90°)`, and the rounded `radiusMeters` returned by
`calculateTurn` is monotone non-increasing there; for every fixed bank angle
in `(0°, 90°)` the pre-rounding radius strictly increases (proportional to
`v²`) as speed increases, and the returned rounded radius is monotone
non-decreasing.  `calculateTurn` returns exactly the rounded pre-rounding
radius on this range. -/
theorem calculateTurn_radius_monotonicity (v v₁ v₂ b b₁ b₂ : ℝ)
    (hv : 0 < v) (hb₁ : 0 < b₁) (hb₁₂ : b₁ < b₂) (hb₂ : b₂ < 90)
    (hv₁ : 0 < v₁) (hv₁₂ : v₁ < v₂) (hb : 0 < b) (hb90 : b < 90) :
    TurnCalculator.turnRadiusRaw v b₂ < TurnCalculator.turnRadiusRaw v b₁ ∧
    jsRound (TurnCalculator.turnRadiusRaw v b₂) ≤ jsRound (TurnCalculator.turnRadiusRaw v b₁) ∧
    TurnCalculator.turnRadiusRaw v₁ b < TurnCalculator.turnRadiusRaw v₂ b ∧
    jsRound (TurnCalculator.turnRadiusRaw v₁ b) ≤ jsRound (TurnCalculator.turnRadiusRaw v₂ b) ∧
    TurnCalculator.turnRadiusRaw v b = v ^ 2 * TurnCalculator.turnRadiusRaw 1 b ∧
    (TurnCalculator.calculateTurn v b).radiusMeters
      = JsNum.fin (jsRound (TurnCalculator.turnRadiusRaw v b)) := by
  have ht₁ : 0 < Real.tan (b₁ * Real.pi / 180) := tan_deg_pos hb₁ (hb₁₂.trans hb₂)
  have ht₂ : 0 < Real.tan (b₂ * Real.pi / 180) := tan_deg_pos (hb₁.trans hb₁₂) hb₂
  have ht₁₂ : Real.tan (b₁ * Real.pi / 180) < Real.tan (b₂ * Real.pi / 180) :=
    tan_deg_strictMono hb₁ hb₁₂ hb₂
  have htb : 0 < Real.tan (b * Real.pi / 180) := tan_deg_pos hb hb90
  have hs : (0 : ℝ) < v * 0.514444 := by nlinarith
  have hdec : TurnCalculator.turnRadiusRaw v b₂ < TurnCalculator.turnRadiusRaw v b₁ := by
    simp only [TurnCalculator.turnRadiusRaw]
    apply div_lt_div_of_pos_left (by nlinarith) (by positivity) (by nlinarith)
  have hinc : TurnCalculator.turnRadiusRaw v₁ b < TurnCalculator.turnRadiusRaw v₂ b := by
    simp only [TurnCalculator.turnRadiusRaw]
    apply (div_lt_div_iff_of_pos_right (by positivity)).mpr
    nlinarith
  refine ⟨hdec, jsRound_mono hdec.le, hinc, jsRound_mono hinc.le, ?_, ?_⟩
  · simp only [TurnCalculator.turnRadiusRaw]
    field_simp
    ring
  · have hcond : ¬(b = 0 ∨ 90 ≤ b) := by
      push_neg
      exact ⟨ne_of_gt hb, hb90⟩
    simp only [TurnCalculator.calculateTurn, TurnCalculator.turnRadiusRaw]
    rw [if_neg hcond]

/-- Witness for `calculateTurn_radius_monotonicity` at
`v = 1, (b₁, b₂) = (30, 45), (v₁, v₂) = (1, 2), b = 30`. -/
theorem calculateTurn_radius_monotonicity_witness :
    (0 : ℝ) < 1 ∧ (0 : ℝ) < 30 ∧ (30 : ℝ) < 45 ∧ (45 : ℝ) < 90 ∧ (1 : ℝ) < 2 ∧
    TurnCalculator.turnRadiusRaw 1 45 < TurnCalculator.turnRadiusRaw 1 30 ∧
    TurnCalculator.turnRadiusRaw 1 30 < TurnCalculator.turnRadiusRaw 2 30 := by
  have h := calculateTurn_radius_monotonicity 1 1 2 30 30 45
    (by norm_num) (by norm_num) (by norm_num) (by norm_num)
    (by norm_num) (by norm_num) (by norm_num) (by norm_num)
  exact ⟨by norm_num, by norm_num, by norm_num, by norm_num, by norm_num, h.1, h.2.2.1⟩

/-- C7. For every `windSpeed ≥ 0`, `windDirection`, and `aircraftHeading`,
`calculateWindComponents` returns `headwind = windSpeed·cos(relative)` and
`crosswind = windSpeed·sin(relative)` where
`relative = (windDirection - aircraftHeading)` in radians, and classifies the
crosswind side as "none" exactly when `|crosswind| < 0.05`, else "right" when
the crosswind is positive and "left" when negative; in particular
`windDirection = aircraftHeading` yields `headwind = windSpeed`,
`crosswind = 0`, side "none". -/
theorem calculateWindComponents_spec (windSpeed windDirection aircraftHeading : ℝ)
    (hws : 0 ≤ windSpeed) :
    ((HeadCrossWind.calculateWindComponents windSpeed windDirection aircraftHeading).headwind
        = windSpeed * Real.cos ((windDirection - aircraftHeading) * Real.pi / 180)) ∧
    ((HeadCrossWind.calculateWindComponents windSpeed windDirection aircraftHeading).crosswind
        = windSpeed * Real.sin ((windDirection - aircraftHeading) * Real.pi / 180)) ∧
    ((HeadCrossWind.calculateWindComponents windSpeed windDirection aircraftHeading).crosswindFrom
          = HeadCrossWind.CrosswindSide.none
        ↔ |(HeadCrossWind.calculateWindComponents windSpeed windDirection
              aircraftHeading).crosswind| < 0.05) ∧
    (0.05 ≤ |(HeadCrossWind.calculateWindComponents windSpeed windDirection
          aircraftHeading).crosswind| →
      (((HeadCrossWind.calculateWindComponents windSpeed windDirection
              aircraftHeading).crosswindFrom = HeadCrossWind.CrosswindSide.right
          ↔ 0 < (HeadCrossWind.calculateWindComponents windSpeed windDirection
              aircraftHeading).crosswind) ∧
        ((HeadCrossWind.calculateWindComponents windSpeed windDirection
              aircraftHeading).crosswindFrom = HeadCrossWind.CrosswindSide.left
          ↔ (HeadCrossWind.calculateWindComponents windSpeed windDirection
              aircraftHeading).crosswind < 0))) ∧
    (windDirection = aircraftHeading →
      (HeadCrossWind.calculateWindComponents windSpeed windDirection
          aircraftHeading).headwind = windSpeed ∧
      (HeadCrossWind.calculateWindComponents windSpeed windDirection
          aircraftHeading).crosswind = 0 ∧
      (HeadCrossWind.calculateWindComponents windSpeed windDirection
          aircraftHeading).crosswindFrom = HeadCrossWind.CrosswindSide.none) := by
  refine ⟨rfl, rfl, ?_, ?_, ?_⟩ <;>
    simp only [HeadCrossWind.calculateWindComponents] <;>
    set cw := windSpeed * Real.sin ((windDirection - aircraftHeading) * Real.pi / 180) with hcw
  · by_cases h : (0.05 : ℝ) ≤ |cw|
    · rw [if_pos h]
      constructor
      · intro hc
        by_cases hpos : 0 < cw
        · rw [if_pos hpos] at hc
          exact absurd hc (by decide)
        · rw [if_neg hpos] at hc
          exact absurd hc (by decide)
      · intro hlt
        exact absurd h (not_le.mpr hlt)
    · rw [if_neg h]
      simp [not_le.mp h]
  · intro habs
    rw [if_pos habs]
    by_cases hpos : 0 < cw
    · rw [if_pos hpos]
      exact ⟨⟨fun _ => hpos, fun _ => rfl⟩,
        ⟨fun hc => absurd hc (by decide), fun hneg => absurd hpos (not_lt.mpr hneg.le)⟩⟩
    · rw [if_neg hpos]
      have hne : cw ≠ 0 := by
        intro h0
        rw [h0] at habs
        norm_num at habs
      have hneg : cw < 0 := lt_of_le_of_ne (not_lt.mp hpos) hne
      exact ⟨⟨fun hc => absurd hc (by decide), fun hp => absurd hp hpos⟩,
        ⟨fun _ => hneg, fun _ => rfl⟩⟩
  · intro heq
    have hrel : (windDirection - aircraftHeading) * Real.pi / 180 = 0 := by
      rw [heq, sub_self, zero_mul, zero_div]
    have hcz : cw = 0 := by
      rw [hcw, hrel, Real.sin_zero, mul_zero]
    refine ⟨?_, hcz, ?_⟩
    · rw [hrel, Real.cos_zero, mul_one]
    · rw [if_neg]
      rw [hcz]
      norm_num

/-- Witness for `calculateWindComponents_spec` at `(10, 90, 90)`. -/
theorem calculateWindComponents_spec_witness :
    (0 : ℝ) ≤ 10 ∧
    (HeadCrossWind.calculateWindComponents 10 90 90).headwind = 10 ∧
    (HeadCrossWind.calculateWindComponents 10 90 90).crosswind = 0 ∧
    (HeadCrossWind.calculateWindComponents 10 90 90).crosswindFrom
      = HeadCrossWind.CrosswindSide.none := by
  have h := (calculateWindComponents_spec 10 90 90 (by norm_num)).2.2.2.2 rfl
  exact ⟨by norm_num, h.1, h.2.1, h.2.2⟩

/-- C9. For every `heading`, `TAS ≥ 0`, `windFromDirection`, and
`windSpeed ≥ 0`, `calculateGroundVector` returns `groundSpeed ≥ 0` and
`groundTrack` in the interval `[0, 360)`, where `groundSpeed` is the
Euclidean norm of the summed aircraft and wind vectors and
`groundTrack = atan2(sumX, sumY)` converted to degrees and normalized. -/
theorem calculateGroundVector_spec (heading tas windFromDirection windSpeed : ℝ)
    (htas : 0 ≤ tas) (hws : 0 ≤ windSpeed) :
    (0 ≤ (TrackGroundSpeed.calculateGroundVector heading tas windFromDirection
        windSpeed).groundSpeed) ∧
    (0 ≤ (TrackGroundSpeed.calculateGroundVector heading tas windFromDirection
        windSpeed).groundTrack) ∧
    ((TrackGroundSpeed.calculateGroundVector heading tas windFromDirection
        windSpeed).groundTrack < 360) ∧
    ((TrackGroundSpeed.calculateGroundVector heading tas windFromDirection
          windSpeed).groundSpeed
        = Real.sqrt
            ((tas * Real.sin (heading * Real.pi / 180)
                + windSpeed * Real.sin (HeadCrossWind.normalizeDegrees (windFromDirection + 180)
                    * Real.pi / 180)) ^ 2
              + (tas * Real.cos (heading * Real.pi / 180)
                + windSpeed * Real.cos (HeadCrossWind.normalizeDegrees (windFromDirection + 180)
                    * Real.pi / 180)) ^ 2)) ∧
    ((TrackGroundSpeed.calculateGroundVector heading tas windFromDirection
          windSpeed).groundTrack
        = HeadCrossWind.normalizeDegrees
            (jsAtan2
                (tas * Real.sin (heading * Real.pi / 180)
                  + windSpeed * Real.sin (HeadCrossWind.normalizeDegrees (windFromDirection + 180)
                      * Real.pi / 180))
                (tas * Real.cos (heading * Real.pi / 180)
                  + windSpeed * Real.cos (HeadCrossWind.normalizeDegrees (windFromDirection + 180)
                      * Real.pi / 180))
              * 180 / Real.pi)) := by
  refine ⟨?_, ?_, ?_, ?_, rfl⟩
  · exact Real.sqrt_nonneg _
  · exact (normalizeDegrees_mem _).1
  · exact (normalizeDegrees_mem _).2
  · simp only [TrackGroundSpeed.calculateGroundVector]
    congr 1
    ring

/-- Witness for `calculateGroundVector_spec` at `(0, 0, 0, 0)`. -/
theorem calculateGroundVector_spec_witness :
    (0 : ℝ) ≤ 0 ∧
    0 ≤ (TrackGroundSpeed.calculateGroundVector 0 0 0 0).groundSpeed ∧
    (TrackGroundSpeed.calculateGroundVector 0 0 0 0).groundTrack < 360 :=
  ⟨le_refl 0, (calculateGroundVector_spec 0 0 0 0 (le_refl 0) (le_refl 0)).1,
    (calculateGroundVector_spec 0 0 0 0 (le_refl 0) (le_refl 0)).2.2.1⟩

/-- The JavaScript remainder of a value already in `[0, y)` is the value itself. -/
theorem jsMod_of_nonneg_lt {x y : ℝ} (h0 : 0 ≤ x) (hxy : x < y) : jsMod x y = x := by
  have hy : 0 < y := lt_of_le_of_lt h0 hxy
  have hdiv : 0 ≤ x / y := div_nonneg h0 hy.le
  have hlt : x / y < 1 := (div_lt_one hy).mpr hxy
  have hfl : ⌊x / y⌋ = 0 := by
    rw [Int.floor_eq_zero_iff, Set.mem_Ico]
    exact ⟨hdiv, hlt⟩
  simp [jsMod, jsTrunc, if_pos hdiv, hfl]

/-- Function `normalizeDeg360` of a value already in `[0, 360)` is the value itself. -/
theorem normalizeDeg360_of_nonneg_lt {x : ℝ} (h0 : 0 ≤ x) (h : x < 360) :
    FlybyTurn.normalizeDeg360 x = x := by
  simp only [FlybyTurn.normalizeDeg360, jsMod_of_nonneg_lt h0 h]
  rw [if_neg (not_lt.mpr h0)]

/-- C5. For every `bankAngleDeg` in `(0, 90)` and `groundSpeedKt > 0`,
`computeTurnAnticipationDistance` raises a validation error if and only if the
smallest normalized track change between the inbound and outbound tracks
(`smallestTurnAngleDeg`) exceeds 179 degrees: the call succeeds exactly when
the track change is at most 179°, and the error raised beyond 179° is the
"179 deg or less" validation error. -/
theorem computeTurnAnticipationDistance_error_iff
    (bank speed inb outb : ℝ) (hb0 : 0 < bank) (hb90 : bank < 90) (hs : 0 < speed) :
    ((FlybyTurn.computeTurnAnticipationDistance bank speed inb outb).isOk = true
        ↔ FlybyTurn.smallestTurnAngleDeg inb outb ≤ 179) ∧
    (FlybyTurn.computeTurnAnticipationDistance bank speed inb outb
          = Except.error "Turn difference must be 179 deg or less for this model."
        ↔ 179 < FlybyTurn.smallestTurnAngleDeg inb outb) := by
  have htan : 0 < Real.tan (FlybyTurn.degToRad bank) := by
    simp only [FlybyTurn.degToRad]
    exact tan_deg_pos hb0 hb90
  simp only [FlybyTurn.computeTurnAnticipationDistance]
  rw [if_neg (not_le.mpr hb0), if_neg (not_le.mpr hs)]
  by_cases h : 179 < FlybyTurn.smallestTurnAngleDeg inb outb
  · rw [if_pos h]
    refine ⟨⟨fun hok => ?_, fun hle => absurd h (not_lt.mpr hle)⟩, ⟨fun _ => h, fun _ => rfl⟩⟩
    simp [Except.isOk, Except.toBool] at hok
  · rw [if_neg h]
    have hle := not_lt.mp h
    by_cases h2 : FlybyTurn.smallestTurnAngleDeg inb outb < 1e-6
    · rw [if_pos h2]
      refine ⟨⟨fun _ => hle, fun _ => ?_⟩,
        ⟨fun hcontra => ?_, fun hgt => absurd hgt (not_lt.mpr hle)⟩⟩
      · simp [Except.isOk, Except.toBool]
      · exact absurd hcontra (by simp)
    · rw [if_neg h2, if_neg (not_le.mpr htan)]
      refine ⟨⟨fun _ => hle, fun _ => ?_⟩,
        ⟨fun hcontra => ?_, fun hgt => absurd hgt (not_lt.mpr hle)⟩⟩
      · simp [Except.isOk, Except.toBool]
      · exact absurd hcontra (by simp)

/-- Witness for `computeTurnAnticipationDistance_error_iff`: the spec scenario
`(bank 25, speed 160, inbound 90, outbound 270)` (a 180° track change) raises
the "179 deg or less" validation error. -/
theorem computeTurnAnticipationDistance_error_iff_witness :
    (0 : ℝ) < 25 ∧ (25 : ℝ) < 90 ∧ (0 : ℝ) < 160 ∧
    FlybyTurn.computeTurnAnticipationDistance 25 160 90 270
      = Except.error "Turn difference must be 179 deg or less for this model." := by
  have hsta : FlybyTurn.smallestTurnAngleDeg 90 270 = 180 := by
    have h90 : FlybyTurn.normalizeDeg360 90 = 90 :=
      normalizeDeg360_of_nonneg_lt (by norm_num) (by norm_num)
    have h270 : FlybyTurn.normalizeDeg360 270 = 270 :=
      normalizeDeg360_of_nonneg_lt (by norm_num) (by norm_num)
    simp only [FlybyTurn.smallestTurnAngleDeg, h90, h270]
    rw [show |(270 : ℝ) - 90| = 180 by rw [show (270 : ℝ) - 90 = 180 by norm_num]; norm_num]
    rw [if_neg (by norm_num)]
  refine ⟨by norm_num, by norm_num, by norm_num, ?_⟩
  exact ((computeTurnAnticipationDistance_error_iff 25 160 90 270
    (by norm_num) (by norm_num) (by norm_num)).2).mpr (by rw [hsta]; norm_num)

/-- C6. For every `targetAltitude` and every `slopeAngle` in `[0, 60]`,
the approach table generator with `distanceUnit = NM` returns exactly 10 rows
whose `distanceNM` values are `1..10` in increasing order, and with
`distanceUnit = km` returns exactly 20 rows for integer distances `1..20` km
(converted internally via `NM = km/1.852`); each row satisfies
`heightAbove = distanceNM * 6076.12 * tan(slopeAngle in radians)` and
`altitudeAbove = targetAltitude + heightAbove`. -/
theorem calculateApproachTable_spec (targetAltitude slopeAngle : ℝ)
    (h0 : 0 ≤ slopeAngle) (h60 : slopeAngle ≤ 60) :
    ((ApproachTable.calculateApproachTable targetAltitude slopeAngle
        ApproachTable.DistanceUnit.NM).length = 10) ∧
    ((ApproachTable.calculateApproachTable targetAltitude slopeAngle
        ApproachTable.DistanceUnit.km).length = 20) ∧
    (∀ i (hi : i < (ApproachTable.calculateApproachTable targetAltitude slopeAngle
        ApproachTable.DistanceUnit.NM).length),
      (((ApproachTable.calculateApproachTable targetAltitude slopeAngle
          ApproachTable.DistanceUnit.NM).get ⟨i, hi⟩).distanceNM = (i : ℝ) + 1) ∧
      (((ApproachTable.calculateApproachTable targetAltitude slopeAngle
          ApproachTable.DistanceUnit.NM).get ⟨i, hi⟩).heightAbove
        = ((ApproachTable.calculateApproachTable targetAltitude slopeAngle
            ApproachTable.DistanceUnit.NM).get ⟨i, hi⟩).distanceNM * 6076.12
              * Real.tan (slopeAngle * Real.pi / 180)) ∧
      (((ApproachTable.calculateApproachTable targetAltitude slopeAngle
          ApproachTable.DistanceUnit.NM).get ⟨i, hi⟩).altitudeAbove
        = targetAltitude + ((ApproachTable.calculateApproachTable targetAltitude slopeAngle
            ApproachTable.DistanceUnit.NM).get ⟨i, hi⟩).heightAbove)) ∧
    (∀ i (hi : i < (ApproachTable.calculateApproachTable targetAltitude slopeAngle
        ApproachTable.DistanceUnit.km).length),
      (((ApproachTable.calculateApproachTable targetAltitude slopeAngle
          ApproachTable.DistanceUnit.km).get ⟨i, hi⟩).distanceNM = ((i : ℝ) + 1) / 1.852) ∧
      (((ApproachTable.calculateApproachTable targetAltitude slopeAngle
          ApproachTable.DistanceUnit.km).get ⟨i, hi⟩).heightAbove
        = ((ApproachTable.calculateApproachTable targetAltitude slopeAngle
            ApproachTable.DistanceUnit.km).get ⟨i, hi⟩).distanceNM * 6076.12
              * Real.tan (slopeAngle * Real.pi / 180)) ∧
      (((ApproachTable.calculateApproachTable targetAltitude slopeAngle
          ApproachTable.DistanceUnit.km).get ⟨i, hi⟩).altitudeAbove
        = targetAltitude + ((ApproachTable.calculateApproachTable targetAltitude slopeAngle
            ApproachTable.DistanceUnit.km).get ⟨i, hi⟩).heightAbove)) := by
  refine ⟨?_, ?_, ?_, ?_⟩
  · simp [ApproachTable.calculateApproachTable]
  · simp [ApproachTable.calculateApproachTable]
  · intro i hi
    simp only [ApproachTable.calculateApproachTable, List.get_eq_getElem, List.getElem_map,
      List.getElem_range] at hi ⊢
    refine ⟨?_, ?_, ?_⟩ <;> first | trivial | (push_cast; ring)
  · intro i hi
    simp only [ApproachTable.calculateApproachTable, List.get_eq_getElem, List.getElem_map,
      List.getElem_range] at hi ⊢
    refine ⟨?_, ?_, ?_⟩ <;> first | trivial | (push_cast; ring)

/-- Witness for `calculateApproachTable_spec` at `(1000, 3°)`. -/
theorem calculateApproachTable_spec_witness :
    (0 : ℝ) ≤ 3 ∧ (3 : ℝ) ≤ 60 ∧
    (ApproachTable.calculateApproachTable 1000 3 ApproachTable.DistanceUnit.NM).length = 10 ∧
    (ApproachTable.calculateApproachTable 1000 3 ApproachTable.DistanceUnit.km).length = 20 :=
  ⟨by norm_num, by norm_num,
    (calculateApproachTable_spec 1000 3 (by norm_num) (by norm_num)).1,
    (calculateApproachTable_spec 1000 3 (by norm_num) (by norm_num)).2.1⟩

/-- C1 counterexample.  The Vite variant of the coordinate parser
(src/src/tools/CoordinatesConversion.ts, the first code source of the claim)
accepts a DMS parse with no direction letter at all: the input consisting of
degrees, minutes and seconds only (48° 51 and seconds 8.9, written with the
minute quote) parses successfully even though no character of the input is a
direction letter, contradicting the claim that a DMS parse raises a
validation error when the direction letter is absent. -/
theorem parseCoordinateString_missing_direction_counterexample :
    ((CoordinatesConversion.parseCoordinateString "48° 51\x27 8.9" true true).isOk = true) ∧
    (("48° 51\x27 8.9".toList.all
        (fun c => ¬(c = 'N' ∨ c = 'S' ∨ c = 'E' ∨ c = 'W'))) = true) := by
  constructor
  · with_unfolding_all rfl
  · rfl

/-- C1 (amended).  When the coordinate grammar matches with no direction
letter captured (neither prefix nor suffix): a DMS-mode parse in the
Angular/React variant (`CoordinatesConversionComponent.parseCoordinateString`,
which requires at least one direction letter for DMS) always raises a
validation error and never succeeds; a DM-mode parse in that variant, and
both DM- and DMS-mode parses in the Vite variant
(`CoordinatesConversion.parseCoordinateString`), fall back to the sign of the
degree number, yielding `sign * (|degrees| + minutes/60 + seconds/3600)`
(provided the minutes/seconds range checks pass, and, for the Vite DMS mode,
a seconds group is present).  Moreover "exactly one direction letter" is too
strong even for the Angular variant: the final closed conjuncts exhibit a DMS
input carrying both a prefix and a suffix direction letter whose match
captures both and whose parse succeeds. -/
theorem parseCoordinateString_direction_handling
    (s : String) (isLat : Bool) (gN gV : DmsGroups)
    (hN : matchDmNg (jsToUpperCase (jsTrim s)).toList = some gN)
    (hNpre : gN.dirPre = none) (hNsuf : gN.dirSuf = none)
    (hV : matchDmVite (jsToUpperCase (jsTrim s)).toList = some gV)
    (hVpre : gV.dirPre = none) (hVsuf : gV.dirSuf = none) :
    ((CoordinatesConversionComponent.parseCoordinateString s true isLat).isOk = false) ∧
    (0 ≤ parseFloatQ gN.minStr → parseFloatQ gN.minStr < 60 →
      0 ≤ capturedSeconds gN → capturedSeconds gN < 60 →
      CoordinatesConversionComponent.parseCoordinateString s false isLat
        = Except.ok (signFallbackValue gN)) ∧
    (0 ≤ parseFloatQ gV.minStr → parseFloatQ gV.minStr < 60 →
      0 ≤ capturedSeconds gV → capturedSeconds gV < 60 →
      (CoordinatesConversion.parseCoordinateString s false isLat
          = Except.ok (signFallbackValue gV)) ∧
      (gV.secStr ≠ none →
        CoordinatesConversion.parseCoordinateString s true isLat
          = Except.ok (signFallbackValue gV))) ∧
    (matchDmNg (jsToUpperCase (jsTrim "N48° 51 8.9 N")).toList
        = some (DmsGroups.mk (some 'N') "48" "51" (some "8.9") (some 'N'))) ∧
    ((CoordinatesConversionComponent.parseCoordinateString "N48° 51 8.9 N" true true).isOk
        = true) := by
  refine ⟨?_, ?_, ?_, ?_, ?_⟩
  case refine_4 => rfl
  case refine_5 => with_unfolding_all rfl
  · simp only [CoordinatesConversionComponent.parseCoordinateString, hN]
    by_cases hr : parseFloatQ gN.minStr < 0 ∨ 60 ≤ parseFloatQ gN.minStr ∨
        capturedSeconds gN < 0 ∨ 60 ≤ capturedSeconds gN
    · rw [if_pos hr]
      rfl
    · rw [if_neg hr]
      by_cases hsec : gN.secStr = none
      · rw [if_pos ⟨by trivial, hsec⟩]
        rfl
      · rw [if_neg (fun hc => hsec hc.2)]
        simp only [hNpre, hNsuf]
        rw [if_pos ⟨by trivial, by trivial⟩]
        rfl
  · intro h1 h2 h3 h4
    have hr : ¬(parseFloatQ gN.minStr < 0 ∨ 60 ≤ parseFloatQ gN.minStr ∨
        capturedSeconds gN < 0 ∨ 60 ≤ capturedSeconds gN) := by
      push_neg
      exact ⟨h1, h2, h3, h4⟩
    simp only [CoordinatesConversionComponent.parseCoordinateString, hN]
    rw [if_neg hr, if_neg (fun hc => absurd hc.1 (by simp)),
      if_neg (fun hc => absurd hc.1 (by simp))]
    simp only [hNpre, hNsuf]
    rfl
  · intro h1 h2 h3 h4
    have hr : ¬(parseFloatQ gV.minStr < 0 ∨ 60 ≤ parseFloatQ gV.minStr ∨
        capturedSeconds gV < 0 ∨ 60 ≤ capturedSeconds gV) := by
      push_neg
      exact ⟨h1, h2, h3, h4⟩
    constructor
    · simp only [CoordinatesConversion.parseCoordinateString, hV]
      rw [if_neg hr, if_neg (fun hc => absurd hc.1 (by simp))]
      simp only [hVpre, hVsuf]
      rfl
    · intro hsec
      simp only [CoordinatesConversion.parseCoordinateString, hV]
      rw [if_neg hr, if_neg (fun hc => hsec hc.2)]
      simp only [hVpre, hVsuf]
      rfl

/-- Witness for `parseCoordinateString_direction_handling` at the input
consisting of 48°, 51 minutes and 8.9 seconds with no direction letter:
the Angular DMS parse fails, while the Angular DM parse and the Vite DMS
parse both succeed with the degree-sign fallback value. -/
theorem parseCoordinateString_direction_handling_witness :
    (matchDmNg (jsToUpperCase (jsTrim "48° 51 8.9")).toList
        = some (DmsGroups.mk none "48" "51" (some "8.9") none)) ∧
    (matchDmVite (jsToUpperCase (jsTrim "48° 51 8.9")).toList
        = some (DmsGroups.mk none "48" "51" (some "8.9") none)) ∧
    ((CoordinatesConversionComponent.parseCoordinateString "48° 51 8.9" true true).isOk
        = false) ∧
    (CoordinatesConversionComponent.parseCoordinateString "48° 51 8.9" false true
        = Except.ok (signFallbackValue (DmsGroups.mk none "48" "51" (some "8.9") none))) ∧
    (CoordinatesConversion.parseCoordinateString "48° 51 8.9" true true
        = Except.ok (signFallbackValue (DmsGroups.mk none "48" "51" (some "8.9") none))) := by
  have hmin0 : (0 : ℚ) ≤ parseFloatQ (DmsGroups.mk none "48" "51" (some "8.9") none).minStr := by
    rw [show parseFloatQ (DmsGroups.mk none "48" "51" (some "8.9") none).minStr
      = ((51 : ℕ) : ℚ) from rfl]
    norm_num
  have hmin60 : parseFloatQ (DmsGroups.mk none "48" "51" (some "8.9") none).minStr < 60 := by
    rw [show parseFloatQ (DmsGroups.mk none "48" "51" (some "8.9") none).minStr
      = ((51 : ℕ) : ℚ) from rfl]
    norm_num
  have hsec0 : (0 : ℚ) ≤ capturedSeconds (DmsGroups.mk none "48" "51" (some "8.9") none) := by
    rw [show capturedSeconds (DmsGroups.mk none "48" "51" (some "8.9") none)
      = ((8 : ℕ) : ℚ) + ((9 : ℕ) : ℚ) / (10 : ℚ) ^ (1 : ℕ) from rfl]
    norm_num
  have hsec60 : capturedSeconds (DmsGroups.mk none "48" "51" (some "8.9") none) < 60 := by
    rw [show capturedSeconds (DmsGroups.mk none "48" "51" (some "8.9") none)
      = ((8 : ℕ) : ℚ) + ((9 : ℕ) : ℚ) / (10 : ℚ) ^ (1 : ℕ) from rfl]
    norm_num
  have h := parseCoordinateString_direction_handling "48° 51 8.9" true
    (DmsGroups.mk none "48" "51" (some "8.9") none)
    (DmsGroups.mk none "48" "51" (some "8.9") none)
    rfl rfl rfl rfl rfl rfl
  exact ⟨rfl, rfl, h.1, h.2.1 hmin0 hmin60 hsec0 hsec60,
    (h.2.2.1 hmin0 hmin60 hsec0 hsec60).2 (by simp)⟩

end Theorems
